import Mathlib

/-!
Verification development for the honestjs/pipes repository.

The repository ships three pipes:
  * `PrimitiveValidationPipe` (src/packages/pipes/src/primitive-validation.pipe.ts)
  * `ClassValidationPipe` (src/packages/class-validator-pipe/src/class-validation.pipe.ts)
  * `ClassValidatorPipe` (src/packages/class-validator-pipe/src/class-validator.pipe.ts)

We shallowly embed the JavaScript/TypeScript code: JS runtime values become an
inductive type, thrown exceptions become `Except`, `async`/`Promise` input is an
explicit sum (an already settled promise outcome), and the external capabilities
(class-transformer `plainToInstance`, class-validator `validate`) become function
parameters.  JS numbers are modelled with an explicit NaN / signed-Infinity /
finite split; a finite number is an exact decimal `mantissa * 10 ^ exp10` in
canonical form, so IEEE-754 rounding and overflow-to-Infinity are abstracted
(exact decimals stand in for doubles).  This abstraction is sound for every
claim settled here: the claims only distinguish NaN from non-NaN, zero from
nonzero, and concrete small decimal literals.
-/

set_option maxHeartbeats 1000000

instance {α β : Type} [DecidableEq α] [DecidableEq β] : DecidableEq (Except α β) :=
  fun x y =>
    match x, y with
    | .ok a, .ok b =>
      if h : a = b then .isTrue (congrArg Except.ok h)
      else .isFalse (fun hc => h (Except.ok.inj hc))
    | .error a, .error b =>
      if h : a = b then .isTrue (congrArg Except.error h)
      else .isFalse (fun hc => h (Except.error.inj hc))
    | .ok _, .error _ => .isFalse (fun hc => Except.noConfusion hc)
    | .error _, .ok _ => .isFalse (fun hc => Except.noConfusion hc)

/-- The value space of an ECMAScript number: NaN, signed infinity, or a finite
value.  `finite m e` denotes the exact decimal `m * 10 ^ e`; every value this
development constructs is canonical (`m = 0 → e = 0`, and a nonzero `m` is not
divisible by 10), so structural equality coincides with numeric equality on
constructed values. -/
inductive JSNum where
  | nan : JSNum
  | inf : Bool → JSNum
  | finite : Int → Int → JSNum
deriving DecidableEq

/-- Strip factors of ten from the mantissa, moving them into the exponent; the
fuel bounds the recursion and is always taken to be the mantissa size. -/
def stripTens : Nat → Int → Int → Int × Int
  | 0, m, e => (m, e)
  | fuel + 1, m, e =>
    if m % 10 = 0 ∧ m ≠ 0 then stripTens fuel (m / 10) (e + 1) else (m, e)

/-- The canonical finite JS number denoting `m * 10 ^ e`. -/
def canonNum (m : Int) (e : Int) : JSNum :=
  if m = 0 then .finite 0 0
  else
    let p := stripTens m.natAbs m e
    .finite p.1 p.2

/-- ECMAScript ToBoolean on a number (the source writes `!!value`):
false exactly for plus-minus zero and NaN. -/
def jsTruthy : JSNum → Bool
  | .nan => false
  | .inf _ => true
  | .finite m _ => decide (m ≠ 0)

/-- ECMAScript Number-to-String. Exact for NaN, infinities and non-negative
exponents (integers); JS prints other finite values with shortest round-trip
float formatting, which we approximate with scientific notation — no theorem in
this file depends on that case. -/
def numToString : JSNum → String
  | .nan => "NaN"
  | .inf true => "Infinity"
  | .inf false => "-Infinity"
  | .finite m e =>
    if 0 ≤ e then toString (m * (10 : Int) ^ e.toNat)
    else toString m ++ "e" ++ toString e

/-- A JS runtime value as the pipes can observe it.  `vObject` stands for any
other object; it carries the outcome of its ToString conversion (`Except`
because a user object may throw from `toString`), which is the only capability
of an opaque object the primitive pipe ever uses. -/
inductive JSValue where
  | vNull : JSValue
  | vUndefined : JSValue
  | vString : String → JSValue
  | vNumber : JSNum → JSValue
  | vBool : Bool → JSValue
  | vObject : Except String String → JSValue
deriving DecidableEq

/-- The JS `typeof` operator on the modelled values (`typeof null` is
"object"). -/
def typeofStr : JSValue → String
  | .vNull => "object"
  | .vUndefined => "undefined"
  | .vString _ => "string"
  | .vNumber _ => "number"
  | .vBool _ => "boolean"
  | .vObject _ => "object"

/-- A thrown JS error as the pipes classify it: a `BadRequestException` from
http-essentials (the classified client-fault kinds), or any other thrown
error. -/
inductive JSError where
  | badRequest : String → JSError
  | other : String → JSError
deriving DecidableEq

/-- The `error instanceof BadRequestException` test. -/
def JSError.isBadRequest : JSError → Bool
  | .badRequest _ => true
  | .other _ => false

/-- The `(error as Error).message` access. -/
def JSError.message : JSError → String
  | .badRequest m => m
  | .other m => m

/-- The raw argument handed to `transform`: either a plain value or a promise,
given by its settlement (fulfilled value or rejection reason; the sources never
inspect the reason). -/
inductive PInput where
  | imm : JSValue → PInput
  | prom : Except String JSValue → PInput
deriving DecidableEq

/-- A `metatype` as the pipes compare it: one of the global constructors
String, Number, Boolean, Array, Object (compared with `===` in the source), or
a user-defined class identified by name. -/
inductive Metatype where
  | mString : Metatype
  | mNumber : Metatype
  | mBoolean : Metatype
  | mArray : Metatype
  | mObject : Metatype
  | mClass : String → Metatype
deriving DecidableEq

/-- honestjs `ArgumentMetadata`: the optional target metatype and the
argument-kind label (`metadata.type`, e.g. "param" / "query" / "body"). The
unused `data` field is omitted, neither pipe reads it. -/
structure ArgumentMetadata where
  metatype : Option Metatype
  type : String
deriving DecidableEq

/-- JS WhiteSpace / LineTerminator characters recognised by `String.trim` and
by StringToNumber, restricted to the ASCII range used by all claims. -/
def isJSSpace (c : Char) : Bool :=
  c = ' ' ∨ c = '\t' ∨ c = '\n' ∨ c = '\r' ∨ c = '\x0b' ∨ c = '\x0c'

/-- Trim on character lists (both ends). -/
def jsTrimList (cs : List Char) : List Char :=
  ((cs.dropWhile isJSSpace).reverse.dropWhile isJSSpace).reverse

/-- JS `String.prototype.trim`. -/
def jsTrim (s : String) : String :=
  ⟨jsTrimList s.data⟩

/-- JS `String.prototype.toLowerCase`, restricted to ASCII (all string sets in
the source are ASCII). -/
def toLowerChar (c : Char) : Char :=
  if 'A' ≤ c ∧ c ≤ 'Z' then Char.ofNat (c.toNat + 32) else c

/-- Lower-casing a whole string. -/
def jsToLower (s : String) : String :=
  ⟨s.data.map toLowerChar⟩

/-- Value of a decimal digit string (most significant first). -/
def digitsToNat (l : List Char) : Nat :=
  l.foldl (fun a c => a * 10 + (c.toNat - 48)) 0

/-- All characters are decimal digits. -/
def allDigits (cs : List Char) : Bool :=
  cs.all Char.isDigit

/-- Split a character list at the first character satisfying `p`; the second
component is `none` when no such character occurs. -/
def splitAtChar (p : Char → Bool) : List Char → List Char × Option (List Char)
  | [] => ([], none)
  | c :: rest =>
    if p c then ([], some rest)
    else
      let r := splitAtChar p rest
      (c :: r.1, r.2)

/-- Value of one hexadecimal digit, if any. -/
def hexDigitVal (c : Char) : Option Nat :=
  if c.isDigit then some (c.toNat - 48)
  else if 'a' ≤ c ∧ c ≤ 'f' then some (c.toNat - 87)
  else if 'A' ≤ c ∧ c ≤ 'F' then some (c.toNat - 55)
  else none

/-- Value of a digit string in the given base, failing on an out-of-range
digit. -/
def digitsVal (base : Nat) (cs : List Char) : Option Nat :=
  cs.foldl
    (fun acc c =>
      match acc, hexDigitVal c with
      | some a, some d => if d < base then some (a * base + d) else none
      | _, _ => none)
    (some 0)

/-- ECMAScript StrUnsignedDecimalLiteral mantissa, `digits [. digits]` with at
least one digit overall: returns the digit value with the fraction length. -/
def parseMantissa (cs : List Char) : Option (Nat × Nat) :=
  let r := splitAtChar (fun c => c = '.') cs
  match r.2 with
  | none =>
    if r.1 ≠ [] ∧ allDigits r.1 then some (digitsToNat r.1, 0) else none
  | some fp =>
    if allDigits r.1 ∧ allDigits fp ∧ (r.1 ≠ [] ∨ fp ≠ []) then
      some (digitsToNat (r.1 ++ fp), fp.length)
    else none

/-- ECMAScript exponent part after the `e`/`E`: optional sign then digits. -/
def parseExponentPart (cs : List Char) : Option Int :=
  match cs with
  | '+' :: ds => if ds ≠ [] ∧ allDigits ds then some ((digitsToNat ds : Int)) else none
  | '-' :: ds => if ds ≠ [] ∧ allDigits ds then some (-(digitsToNat ds : Int)) else none
  | ds => if ds ≠ [] ∧ allDigits ds then some ((digitsToNat ds : Int)) else none

/-- ECMAScript StrUnsignedDecimalLiteral: mantissa with optional exponent,
yielding the digit value together with the decimal exponent. -/
def parseUnsignedDec (cs : List Char) : Option (Nat × Int) :=
  let r := splitAtChar (fun c => c = 'e' ∨ c = 'E') cs
  match r.2 with
  | none =>
    match parseMantissa r.1 with
    | some m => some (m.1, -(m.2 : Int))
    | none => none
  | some ecs =>
    match parseMantissa r.1, parseExponentPart ecs with
    | some m, some e => some (m.1, e - (m.2 : Int))
    | _, _ => none

/-- ECMAScript NonDecimalIntegerLiteral: `0x`/`0o`/`0b` digit strings (no sign
permitted). -/
def parseRadix : List Char → Option Nat
  | '0' :: c :: rest =>
    if (c = 'x' ∨ c = 'X') ∧ rest ≠ [] then digitsVal 16 rest
    else if (c = 'o' ∨ c = 'O') ∧ rest ≠ [] then digitsVal 8 rest
    else if (c = 'b' ∨ c = 'B') ∧ rest ≠ [] then digitsVal 2 rest
    else none
  | _ => none

/-- ECMAScript StringToNumber, the semantics of the source expression
`Number(value)` on a string: trim; empty means zero; radix literals;
otherwise an optionally signed decimal literal or `Infinity`; anything else is
NaN. -/
def strToNumber (s : String) : JSNum :=
  let t := jsTrimList s.data
  if t = [] then .finite 0 0
  else
    match parseRadix t with
    | some n => canonNum (n : Int) 0
    | none =>
      let neg : Bool := match t with | '-' :: _ => true | _ => false
      let body : List Char := match t with | '-' :: r => r | '+' :: r => r | r => r
      if body = "Infinity".data then .inf (!neg)
      else
        match parseUnsignedDec body with
        | some p => canonNum (if neg then -(p.1 : Int) else (p.1 : Int)) p.2
        | none => .nan

/-- ECMAScript ToString, the semantics of the source expression
`String(value)`; an opaque object may throw from its own `toString`, hence the
`Except`. -/
def jsToString : JSValue → Except JSError String
  | .vNull => .ok "null"
  | .vUndefined => .ok "undefined"
  | .vString s => .ok s
  | .vNumber n => .ok (numToString n)
  | .vBool true => .ok "true"
  | .vBool false => .ok "false"
  | .vObject (.ok s) => .ok s
  | .vObject (.error m) => .error (.other m)

namespace PrimitiveValidationPipe

/-- The constructor options object of `PrimitiveValidationPipe`; `none` models
an absent (undefined) field. -/
structure Options where
  transformBoolean : Option Bool
  transformNumber : Option Bool
  transformString : Option Bool
deriving DecidableEq

/-- The default parameter value of the constructor (all three switches present
and true). -/
def defaultOptions : Options :=
  ⟨some true, some true, some true⟩

/-- Constructing the pipe: a TS default parameter, so the default object is
used only when no options argument is supplied; a supplied object is stored
as-is (no field-wise merging happens in the source). -/
def mk (o : Option Options) : Options :=
  o.getD defaultOptions

/-- JS truthiness of a possibly-undefined boolean option field, as read by
`this.options.transformX` in a condition. -/
def truthyOpt : Option Bool → Bool
  | none => false
  | some b => b

/-- `PrimitiveValidationPipe.transformValue` (primitive-validation.pipe.ts,
lines 175-226), translated branch for branch. -/
def transformValue (opts : Options) (value : JSValue) (metatype : Metatype) :
    Except JSError JSValue :=
  if metatype = .mString ∧ truthyOpt opts.transformString then
    match value with
    | .vString _ => .ok value
    | .vNull => .ok value
    | .vUndefined => .ok value
    | _ =>
      match jsToString value with
      | .ok s => .ok (.vString s)
      | .error e => .error e
  else if metatype = .mNumber ∧ truthyOpt opts.transformNumber then
    match value with
    | .vNumber _ => .ok value
    | .vString s =>
      let parsedValue := strToNumber s
      if parsedValue = .nan then
        .error (.badRequest ("Cannot convert \x27" ++ s ++ "\x27 to a number"))
      else .ok (.vNumber parsedValue)
    | _ => .error (.badRequest ("Cannot convert " ++ typeofStr value ++ " to a number"))
  else if metatype = .mBoolean ∧ truthyOpt opts.transformBoolean then
    match value with
    | .vBool _ => .ok value
    | .vString s =>
      let normalizedValue := jsTrim (jsToLower s)
      if normalizedValue ∈ (["true", "yes", "1", "on"] : List String) then
        .ok (.vBool true)
      else if normalizedValue ∈ (["false", "no", "0", "off"] : List String) then
        .ok (.vBool false)
      else
        .error (.badRequest ("Cannot convert string \x27" ++ s ++ "\x27 to a boolean"))
    | .vNumber n => .ok (.vBool (jsTruthy n))
    | _ => .error (.badRequest ("Cannot convert " ++ typeofStr value ++ " to a boolean"))
  else
    .ok value

/-- The promise-resolution prologue of `transform` (lines 112-119): await the
promise, mapping any rejection to the InvalidInput failure. -/
def resolveValue : PInput → Except JSError JSValue
  | .imm v => .ok v
  | .prom (.ok v) => .ok v
  | .prom (.error _) => .error (.badRequest "Invalid request data")

/-- `PrimitiveValidationPipe.transform` (lines 111-140): resolve the promise,
short-circuit null/undefined, passthrough on missing metatype, then run
`transformValue` under the catch that re-raises `BadRequestException`s and
wraps anything else with the argument-kind label. -/
def transform (opts : Options) (value : PInput) (metadata : ArgumentMetadata) :
    Except JSError JSValue :=
  match resolveValue value with
  | .error e => .error e
  | .ok v =>
    if v = .vNull ∨ v = .vUndefined then .ok v
    else
      match metadata.metatype with
      | none => .ok v
      | some mt =>
        match transformValue opts v mt with
        | .ok r => .ok r
        | .error e =>
          if e.isBadRequest then .error e
          else
            .error (.badRequest
              ("Failed to validate " ++ metadata.type ++ ": " ++ e.message))

end PrimitiveValidationPipe

/-- A class-validator `ValidationError` node: a property name, an optional
constraint-name-to-message mapping (an assoc list, `Object.values` order being
insertion order), and nested child nodes (class-validator leaves `children`
possibly undefined, which behaves like the empty list in the only use
`error.children && error.children.length > 0`, so a plain list is used). -/
inductive VError where
  | node : String → Option (List (String × String)) → List VError → VError

/-- class-validator `ValidatorOptions`, restricted to the two fields the
constructors mention; the remaining fields are only forwarded unchanged to the
external capability and are not modelled.  `none` models an absent field. -/
structure ValidatorOptions where
  whitelist : Option Bool
  forbidNonWhitelisted : Option Bool
deriving DecidableEq

/-- class-transformer `ClassTransformOptions`, restricted likewise. -/
structure ClassTransformOptions where
  enableImplicitConversion : Option Bool
deriving DecidableEq

/-- The immutable per-instance state of either class-validation pipe. -/
structure PipeConfig where
  validatorOptions : ValidatorOptions
  transformOptions : ClassTransformOptions
deriving DecidableEq

/-- The external structural-transform capability (class-transformer
`plainToInstance`); it may throw. -/
def PlainToInstance : Type :=
  Metatype → JSValue → ClassTransformOptions → Except JSError JSValue

/-- The external structural-validate capability (class-validator `validate`);
its promise may reject, hence `Except`. -/
def ValidateFn : Type :=
  JSValue → ValidatorOptions → Except JSError (List VError)

namespace ClassValidationPipe

/-- The constructor of `ClassValidationPipe` (class-validation.pipe.ts, lines
84-94): both arguments default to the empty object and are spread over the
documented defaults, so a field supplied by the caller wins and an absent field
falls back to the default. -/
def mk (validatorOptions : Option ValidatorOptions)
    (transformOptions : Option ClassTransformOptions) : PipeConfig :=
  let vo := validatorOptions.getD ⟨none, none⟩
  let topts := transformOptions.getD ⟨none⟩
  ⟨⟨some (vo.whitelist.getD true), some (vo.forbidNonWhitelisted.getD false)⟩,
   ⟨some (topts.enableImplicitConversion.getD true)⟩⟩

/-- `ClassValidationPipe.toValidate` (lines 198-202): validate exactly when the
metatype is not one of String, Boolean, Number, Array, Object. -/
def toValidate : Metatype → Bool
  | .mString => false
  | .mBoolean => false
  | .mNumber => false
  | .mArray => false
  | .mObject => false
  | .mClass _ => true

/-- `ClassValidationPipe.buildErrorMessages` (lines 167-180): walk the
violation list in order; for each node, push `"<path>: <messages>"` when it has
constraints (the path prefixed by the parent path unless that is absent or
empty, both being falsy in JS), then append the recursively flattened
children. -/
def buildErrorMessages : List VError → Option String → List String
  | [], _ => []
  | .node prop constraints children :: rest, parentProperty =>
    let propertyPath :=
      match parentProperty with
      | some p => if p = "" then prop else p ++ "." ++ prop
      | none => prop
    let here :=
      match constraints with
      | some cs => [propertyPath ++ ": " ++ String.intercalate ", " (cs.map Prod.snd)]
      | none => []
    here ++ buildErrorMessages children (some propertyPath)
      ++ buildErrorMessages rest parentProperty

/-- The promise-resolution prologue of `transform` (lines 123-130). -/
def resolveValue : PInput → Except JSError JSValue
  | .imm v => .ok v
  | .prom (.ok v) => .ok v
  | .prom (.error _) => .error (.badRequest "Invalid request data")

/-- The try-block of `transform` (lines 142-155): structural transform, then
structural validation, then either the joined violation messages as a
`BadRequestException` or the transformed instance. -/
def attempt (p2i : PlainToInstance) (validateFn : ValidateFn)
    (pipe : PipeConfig) (mt : Metatype) (v : JSValue) : Except JSError JSValue :=
  match p2i mt v pipe.transformOptions with
  | .error e => .error e
  | .ok object =>
    match validateFn object pipe.validatorOptions with
    | .error e => .error e
    | .ok errors =>
      if errors.length > 0 then
        .error (.badRequest (String.intercalate "; " (buildErrorMessages errors none)))
      else .ok object

/-- `ClassValidationPipe.transform` (lines 121-165): resolve the promise, skip
when there is no metatype or `toValidate` rejects it, short-circuit
null/undefined, then run the try-block under the catch that re-raises
`BadRequestException`s and turns anything else into the generic
"Validation failed". -/
def transform (p2i : PlainToInstance) (validateFn : ValidateFn)
    (pipe : PipeConfig) (value : PInput) (metadata : ArgumentMetadata) :
    Except JSError JSValue :=
  match resolveValue value with
  | .error e => .error e
  | .ok resolvedValue =>
    match metadata.metatype with
    | none => .ok resolvedValue
    | some mt =>
      if !toValidate mt then .ok resolvedValue
      else if resolvedValue = .vNull ∨ resolvedValue = .vUndefined then .ok resolvedValue
      else
        match attempt p2i validateFn pipe mt resolvedValue with
        | .ok r => .ok r
        | .error e =>
          if e.isBadRequest then .error e
          else .error (.badRequest "Validation failed")

end ClassValidationPipe

namespace ClassValidatorPipe

/-- The constructor of `ClassValidatorPipe` (class-validator.pipe.ts, lines
26-36), translated independently of its sibling. -/
def mk (validatorOptions : Option ValidatorOptions)
    (transformOptions : Option ClassTransformOptions) : PipeConfig :=
  let vo := validatorOptions.getD ⟨none, none⟩
  let topts := transformOptions.getD ⟨none⟩
  ⟨⟨some (vo.whitelist.getD true), some (vo.forbidNonWhitelisted.getD false)⟩,
   ⟨some (topts.enableImplicitConversion.getD true)⟩⟩

/-- `ClassValidatorPipe.toValidate` (lines 117-121). -/
def toValidate : Metatype → Bool
  | .mString => false
  | .mBoolean => false
  | .mNumber => false
  | .mArray => false
  | .mObject => false
  | .mClass _ => true

/-- `ClassValidatorPipe.buildErrorMessages` (lines 92-105). -/
def buildErrorMessages : List VError → Option String → List String
  | [], _ => []
  | .node prop constraints children :: rest, parentProperty =>
    let propertyPath :=
      match parentProperty with
      | some p => if p = "" then prop else p ++ "." ++ prop
      | none => prop
    let here :=
      match constraints with
      | some cs => [propertyPath ++ ": " ++ String.intercalate ", " (cs.map Prod.snd)]
      | none => []
    here ++ buildErrorMessages children (some propertyPath)
      ++ buildErrorMessages rest parentProperty

/-- The promise-resolution prologue of `transform` (lines 55-62). -/
def resolveValue : PInput → Except JSError JSValue
  | .imm v => .ok v
  | .prom (.ok v) => .ok v
  | .prom (.error _) => .error (.badRequest "Invalid request data")

/-- The try-block of `transform` (lines 72-82). -/
def attempt (p2i : PlainToInstance) (validateFn : ValidateFn)
    (pipe : PipeConfig) (mt : Metatype) (v : JSValue) : Except JSError JSValue :=
  match p2i mt v pipe.transformOptions with
  | .error e => .error e
  | .ok object =>
    match validateFn object pipe.validatorOptions with
    | .error e => .error e
    | .ok errors =>
      if errors.length > 0 then
        .error (.badRequest (String.intercalate "; " (buildErrorMessages errors none)))
      else .ok object

/-- `ClassValidatorPipe.transform` (lines 54-90). -/
def transform (p2i : PlainToInstance) (validateFn : ValidateFn)
    (pipe : PipeConfig) (value : PInput) (metadata : ArgumentMetadata) :
    Except JSError JSValue :=
  match resolveValue value with
  | .error e => .error e
  | .ok resolvedValue =>
    match metadata.metatype with
    | none => .ok resolvedValue
    | some mt =>
      if !toValidate mt then .ok resolvedValue
      else if resolvedValue = .vNull ∨ resolvedValue = .vUndefined then .ok resolvedValue
      else
        match attempt p2i validateFn pipe mt resolvedValue with
        | .ok r => .ok r
        | .error e =>
          if e.isBadRequest then .error e
          else .error (.badRequest "Validation failed")

end ClassValidatorPipe

/-- Joining strings with a dot, as the specification words it. -/
def joinDot : List String → String
  | [] => ""
  | [x] => x
  | x :: rest => x ++ "." ++ joinDot rest

/-- Modelled from the spec, for comparison with the source-translated
`ClassValidationPipe.buildErrorMessages`: flatten the violation tree
depth-first into an ordered list of `"<propertyPath>: <joined constraint
messages>"` strings, each parent segment before its children, and each path
being the property names of the ancestors followed by the own name, joined
with ".". -/
def specFlatten : List VError → List String → List String
  | [], _ => []
  | .node prop constraints children :: rest, ancestors =>
    let path := joinDot (ancestors ++ [prop])
    let here :=
      match constraints with
      | some cs => [path ++ ": " ++ String.intercalate ", " (cs.map Prod.snd)]
      | none => []
    here ++ specFlatten children (ancestors ++ [prop]) ++ specFlatten rest ancestors

/-- No property name anywhere in the forest is the empty string. -/
def noEmptyPropsList : List VError → Bool
  | [] => true
  | .node p _ ch :: rest => (p ≠ "" : Bool) && noEmptyPropsList ch && noEmptyPropsList rest

/-- Boolean substring test (does `needle` occur contiguously in `hay`), used
to state that a message does or does not include a label. -/
def hasSubstr (needle : List Char) : List Char → Bool
  | [] => needle.isEmpty
  | c :: t => needle.isPrefixOf (c :: t) || hasSubstr needle t

example : strToNumber "42" = .finite 42 0 := by decide
example : strToNumber "12.5" = .finite 125 (-1) := by decide
example : strToNumber "" = .finite 0 0 := by decide
example : strToNumber "abc" = .nan := by decide
example : strToNumber "12abc" = .nan := by decide
example : strToNumber "-42" = .finite (-42) 0 := by decide
example : strToNumber " 7 " = .finite 7 0 := by decide
example : strToNumber "0x10" = .finite 16 0 := by decide
example : strToNumber "1e3" = .finite 1 3 := by decide
example : strToNumber "1000" = .finite 1 3 := by decide
example : strToNumber "1e-2" = .finite 1 (-2) := by decide
example : strToNumber "Infinity" = .inf true := by decide
example : strToNumber "-Infinity" = .inf false := by decide
example : strToNumber "." = .nan := by decide
example : strToNumber "1.2.3" = .nan := by decide
example : strToNumber "0.20" = strToNumber "0.2" := by decide
example : jsTrim (jsToLower " TRUE ") = "true" := by decide

/-- Evaluation of the primitive transform on an immediate, non-null,
non-undefined value with a declared metatype: it runs `transformValue` under
the classify-or-wrap catch. -/
theorem PrimitiveValidationPipe.prim_transform_eval (opts : Options) (v : JSValue)
    (md : ArgumentMetadata) (mt : Metatype)
    (hmd : md.metatype = some mt) (h0 : v ≠ .vNull) (h1 : v ≠ .vUndefined) :
    transform opts (.imm v) md =
      match transformValue opts v mt with
      | .ok r => .ok r
      | .error e =>
        if e.isBadRequest then .error e
        else
          .error (.badRequest
            ("Failed to validate " ++ md.type ++ ": " ++ e.message)) := by
  unfold transform
  simp [resolveValue, hmd, h0, h1]

/-- A successful `transformValue` is returned as-is by the primitive
transform. -/
theorem PrimitiveValidationPipe.prim_transform_ok (opts : Options) (v : JSValue)
    (md : ArgumentMetadata) (mt : Metatype) (r : JSValue)
    (hmd : md.metatype = some mt) (h0 : v ≠ .vNull) (h1 : v ≠ .vUndefined)
    (h : transformValue opts v mt = .ok r) :
    transform opts (.imm v) md = .ok r := by
  rw [prim_transform_eval opts v md mt hmd h0 h1, h]

/-- A classified (`BadRequestException`) failure of `transformValue` is
re-raised unchanged by the primitive transform. -/
theorem PrimitiveValidationPipe.prim_transform_classified (opts : Options) (v : JSValue)
    (md : ArgumentMetadata) (mt : Metatype) (m : String)
    (hmd : md.metatype = some mt) (h0 : v ≠ .vNull) (h1 : v ≠ .vUndefined)
    (h : transformValue opts v mt = .error (.badRequest m)) :
    transform opts (.imm v) md = .error (.badRequest m) := by
  rw [prim_transform_eval opts v md mt hmd h0 h1, h]
  simp [JSError.isBadRequest]

/-- An unclassified failure of `transformValue` is wrapped by the primitive
transform with a message carrying the argument-kind label. -/
theorem PrimitiveValidationPipe.prim_transform_unclassified (opts : Options) (v : JSValue)
    (md : ArgumentMetadata) (mt : Metatype) (m : String)
    (hmd : md.metatype = some mt) (h0 : v ≠ .vNull) (h1 : v ≠ .vUndefined)
    (h : transformValue opts v mt = .error (.other m)) :
    transform opts (.imm v) md =
      .error (.badRequest ("Failed to validate " ++ md.type ++ ": " ++ m)) := by
  rw [prim_transform_eval opts v md mt hmd h0 h1, h]
  simp [JSError.isBadRequest, JSError.message]

/-- C1: on the number target with number coercion enabled, a string parsing to
a finite number is returned parsed, and "abc" and "12abc" fail with the
ConversionError; but the empty string does NOT fail: ECMAScript StringToNumber
maps "" to 0, `isNaN(0)` is false, so the pipe returns the number 0 — the
failing input of the recorded code bug (the package README documents that ""
throws "Cannot convert \x27\x27 to a number"). -/
theorem claim_c1 :
    PrimitiveValidationPipe.transform PrimitiveValidationPipe.defaultOptions
        (.imm (.vString "42")) ⟨some .mNumber, "param"⟩
      = .ok (.vNumber (.finite 42 0)) ∧
    PrimitiveValidationPipe.transform PrimitiveValidationPipe.defaultOptions
        (.imm (.vString "12.5")) ⟨some .mNumber, "param"⟩
      = .ok (.vNumber (.finite 125 (-1))) ∧
    PrimitiveValidationPipe.transform PrimitiveValidationPipe.defaultOptions
        (.imm (.vString "abc")) ⟨some .mNumber, "param"⟩
      = .error (.badRequest "Cannot convert \x27abc\x27 to a number") ∧
    PrimitiveValidationPipe.transform PrimitiveValidationPipe.defaultOptions
        (.imm (.vString "12abc")) ⟨some .mNumber, "param"⟩
      = .error (.badRequest "Cannot convert \x2712abc\x27 to a number") ∧
    PrimitiveValidationPipe.transform PrimitiveValidationPipe.defaultOptions
        (.imm (.vString "")) ⟨some .mNumber, "param"⟩
      = .ok (.vNumber (.finite 0 0)) := by
  decide

/-- C2 counterexample: a pipe constructed with an options object specifying
only `transformString: true` does NOT treat the unspecified number switch as
enabled — transforming "42" against the Number target returns the string "42"
unchanged instead of the number 42. -/
theorem claim_c2_counterexample :
    PrimitiveValidationPipe.transform
        (PrimitiveValidationPipe.mk (some ⟨none, none, some true⟩))
        (.imm (.vString "42")) ⟨some .mNumber, "query"⟩
      = .ok (.vString "42") ∧
    JSValue.vString "42" ≠ JSValue.vNumber (.finite 42 0) := by
  decide

/-- C2 (amended): the all-enabled defaults apply only when no options object
is supplied at construction; a supplied options object is stored wholesale
(no field-wise merge), so a switch it leaves unspecified is falsy and the
corresponding target becomes a passthrough. -/
theorem claim_c2 :
    PrimitiveValidationPipe.mk none = PrimitiveValidationPipe.defaultOptions ∧
    (∀ o : PrimitiveValidationPipe.Options, PrimitiveValidationPipe.mk (some o) = o) ∧
    (∀ (o : PrimitiveValidationPipe.Options) (v : JSValue),
      (o.transformString = none →
        PrimitiveValidationPipe.transformValue o v .mString = .ok v) ∧
      (o.transformNumber = none →
        PrimitiveValidationPipe.transformValue o v .mNumber = .ok v) ∧
      (o.transformBoolean = none →
        PrimitiveValidationPipe.transformValue o v .mBoolean = .ok v)) := by
  refine ⟨rfl, fun o => rfl, fun o v => ⟨?_, ?_, ?_⟩⟩ <;>
    intro h <;>
    simp [PrimitiveValidationPipe.transformValue, PrimitiveValidationPipe.truthyOpt, h]

/-- C2 witness: the amended claim evaluated at a concrete partial options
object and input. -/
theorem claim_c2_witness :
    PrimitiveValidationPipe.transformValue ⟨none, none, some true⟩ (.vString "42") .mNumber
      = .ok (.vString "42") :=
  (claim_c2.2.2 ⟨none, none, some true⟩ (.vString "42")).2.1 rfl

/-- C4 counterexample: NaN is a value of the number runtime kind and is not
equal to zero, yet the boolean target maps it to false (the source computes
`!!value`, and `!!NaN` is false), contradicting "every nonzero number maps to
true". -/
theorem claim_c4_counterexample :
    PrimitiveValidationPipe.transform PrimitiveValidationPipe.defaultOptions
        (.imm (.vNumber .nan)) ⟨some .mBoolean, "query"⟩ = .ok (.vBool false) ∧
    JSNum.nan ≠ JSNum.finite 0 0 := by
  decide

/-- C4 (amended): on the boolean target with boolean coercion enabled, a
boolean is returned as-is; a string is trimmed and lower-cased and then the
four truthy spellings map to true, the four falsy spellings to false, and any
other normalized text fails with the ConversionError; a number maps to its JS
truthiness — zero AND NaN map to false, every other number (negative numbers
and infinities included) maps to true; and any other runtime kind fails with
the ConversionError. -/
theorem claim_c4 :
    ∀ (opts : PrimitiveValidationPipe.Options) (md : ArgumentMetadata),
      md.metatype = some .mBoolean →
      PrimitiveValidationPipe.truthyOpt opts.transformBoolean = true →
      (∀ b : Bool,
        PrimitiveValidationPipe.transform opts (.imm (.vBool b)) md = .ok (.vBool b)) ∧
      (∀ s : String, jsTrim (jsToLower s) ∈ (["true", "yes", "1", "on"] : List String) →
        PrimitiveValidationPipe.transform opts (.imm (.vString s)) md = .ok (.vBool true)) ∧
      (∀ s : String, jsTrim (jsToLower s) ∈ (["false", "no", "0", "off"] : List String) →
        PrimitiveValidationPipe.transform opts (.imm (.vString s)) md = .ok (.vBool false)) ∧
      (∀ s : String,
        jsTrim (jsToLower s) ∉ (["true", "yes", "1", "on"] : List String) →
        jsTrim (jsToLower s) ∉ (["false", "no", "0", "off"] : List String) →
        PrimitiveValidationPipe.transform opts (.imm (.vString s)) md
          = .error (.badRequest ("Cannot convert string \x27" ++ s ++ "\x27 to a boolean"))) ∧
      (∀ n : JSNum,
        PrimitiveValidationPipe.transform opts (.imm (.vNumber n)) md
          = .ok (.vBool (jsTruthy n))) ∧
      (jsTruthy (.finite 0 0) = false ∧ jsTruthy .nan = false ∧
        (∀ (m e : Int), m ≠ 0 → jsTruthy (.finite m e) = true) ∧
        (∀ p : Bool, jsTruthy (.inf p) = true)) ∧
      (∀ r : Except String String,
        PrimitiveValidationPipe.transform opts (.imm (.vObject r)) md
          = .error (.badRequest "Cannot convert object to a boolean")) := by
  intro opts md hmd hb
  refine ⟨?_, ?_, ?_, ?_, ?_, ⟨rfl, rfl, ?_, fun p => rfl⟩, ?_⟩
  · intro b
    exact PrimitiveValidationPipe.prim_transform_ok opts _ md _ _ hmd
      (by simp) (by simp)
      (by simp [PrimitiveValidationPipe.transformValue, hb])
  · intro s hs
    exact PrimitiveValidationPipe.prim_transform_ok opts _ md _ _ hmd
      (by simp) (by simp)
      (by simp [PrimitiveValidationPipe.transformValue, hb, hs])
  · intro s hs
    have hs2 : jsTrim (jsToLower s) ∉ (["true", "yes", "1", "on"] : List String) := by
      intro hc
      simp only [List.mem_cons, List.not_mem_nil, or_false] at hs hc
      rcases hs with h | h | h | h <;> rcases hc with h2 | h2 | h2 | h2 <;>
        rw [h] at h2 <;> exact absurd h2 (by decide)
    exact PrimitiveValidationPipe.prim_transform_ok opts _ md _ _ hmd
      (by simp) (by simp)
      (by simp [PrimitiveValidationPipe.transformValue, hb, hs, hs2])
  · intro s hs1 hs2
    exact PrimitiveValidationPipe.prim_transform_classified opts _ md _ _ hmd
      (by simp) (by simp)
      (by simp [PrimitiveValidationPipe.transformValue, hb, hs1, hs2])
  · intro n
    exact PrimitiveValidationPipe.prim_transform_ok opts _ md _ _ hmd
      (by simp) (by simp)
      (by simp [PrimitiveValidationPipe.transformValue, hb])
  · intro m e hm
    simp [jsTruthy, hm]
  · intro r
    exact PrimitiveValidationPipe.prim_transform_classified opts _ md _ _ hmd
      (by simp) (by simp)
      (by simp [PrimitiveValidationPipe.transformValue, hb, typeofStr])

/-- C4 witness: the amended claim evaluated at the default options and
concrete inputs. -/
theorem claim_c4_witness :
    PrimitiveValidationPipe.transform PrimitiveValidationPipe.defaultOptions
        (.imm (.vString " YES ")) ⟨some .mBoolean, "query"⟩ = .ok (.vBool true) ∧
    PrimitiveValidationPipe.transform PrimitiveValidationPipe.defaultOptions
        (.imm (.vString "maybe")) ⟨some .mBoolean, "query"⟩
      = .error (.badRequest "Cannot convert string \x27maybe\x27 to a boolean") ∧
    PrimitiveValidationPipe.transform PrimitiveValidationPipe.defaultOptions
        (.imm (.vNumber (.finite (-1) 0))) ⟨some .mBoolean, "query"⟩ = .ok (.vBool true) :=
  ⟨(claim_c4 PrimitiveValidationPipe.defaultOptions ⟨some .mBoolean, "query"⟩ rfl rfl).2.1
      " YES " (by decide),
   ((claim_c4 PrimitiveValidationPipe.defaultOptions ⟨some .mBoolean, "query"⟩ rfl rfl).2.2.2.1
      "maybe" (by decide) (by decide)),
   by
     have h := (claim_c4 PrimitiveValidationPipe.defaultOptions ⟨some .mBoolean, "query"⟩
       rfl rfl).2.2.2.2.1 (.finite (-1) 0)
     simpa using h⟩

/-- Evaluation of the class-validation transform on an immediate, non-null,
non-undefined value with a metatype accepted by `toValidate`: it runs the
try-block under the classify-or-generic-wrap catch. -/
theorem ClassValidationPipe.cvn_transform_eval (p2i : PlainToInstance) (vfn : ValidateFn)
    (pipe : PipeConfig) (v : JSValue) (md : ArgumentMetadata) (mt : Metatype)
    (hmd : md.metatype = some mt) (hval : toValidate mt = true)
    (h0 : v ≠ .vNull) (h1 : v ≠ .vUndefined) :
    transform p2i vfn pipe (.imm v) md =
      match attempt p2i vfn pipe mt v with
      | .ok r => .ok r
      | .error e =>
        if e.isBadRequest then .error e
        else .error (.badRequest "Validation failed") := by
  unfold transform
  simp [resolveValue, hmd, hval, h0, h1]

/-- A classified (`BadRequestException`) failure of the try-block is re-raised
unchanged by the class-validation transform. -/
theorem ClassValidationPipe.cvn_transform_classified (p2i : PlainToInstance)
    (vfn : ValidateFn) (pipe : PipeConfig) (v : JSValue) (md : ArgumentMetadata)
    (mt : Metatype) (m : String)
    (hmd : md.metatype = some mt) (hval : toValidate mt = true)
    (h0 : v ≠ .vNull) (h1 : v ≠ .vUndefined)
    (h : attempt p2i vfn pipe mt v = .error (.badRequest m)) :
    transform p2i vfn pipe (.imm v) md = .error (.badRequest m) := by
  rw [cvn_transform_eval p2i vfn pipe v md mt hmd hval h0 h1, h]
  simp [JSError.isBadRequest]

/-- An unclassified failure of the try-block is turned into the generic
"Validation failed" by the class-validation transform, whatever its message. -/
theorem ClassValidationPipe.cvn_transform_unclassified (p2i : PlainToInstance)
    (vfn : ValidateFn) (pipe : PipeConfig) (v : JSValue) (md : ArgumentMetadata)
    (mt : Metatype) (m : String)
    (hmd : md.metatype = some mt) (hval : toValidate mt = true)
    (h0 : v ≠ .vNull) (h1 : v ≠ .vUndefined)
    (h : attempt p2i vfn pipe mt v = .error (.other m)) :
    transform p2i vfn pipe (.imm v) md = .error (.badRequest "Validation failed") := by
  rw [cvn_transform_eval p2i vfn pipe v md mt hmd hval h0 h1, h]
  simp [JSError.isBadRequest]

/-- The try-block fails with the error of the structural-transform capability
when that one throws. -/
theorem ClassValidationPipe.attempt_p2i_error (p2i : PlainToInstance) (vfn : ValidateFn)
    (pipe : PipeConfig) (mt : Metatype) (v : JSValue) (e : JSError)
    (h : p2i mt v pipe.transformOptions = .error e) :
    attempt p2i vfn pipe mt v = .error e := by
  unfold attempt
  rw [h]

/-- The try-block fails with the error of the structural-validate capability
when the transform step succeeded and validation throws. -/
theorem ClassValidationPipe.attempt_vfn_error (p2i : PlainToInstance) (vfn : ValidateFn)
    (pipe : PipeConfig) (mt : Metatype) (v obj : JSValue) (e : JSError)
    (h1 : p2i mt v pipe.transformOptions = .ok obj)
    (h2 : vfn obj pipe.validatorOptions = .error e) :
    attempt p2i vfn pipe mt v = .error e := by
  simp only [attempt, h1, h2]

/-- The try-block on a non-empty violation list fails with the joined
flattened messages as a `BadRequestException`. -/
theorem ClassValidationPipe.attempt_violations (p2i : PlainToInstance) (vfn : ValidateFn)
    (pipe : PipeConfig) (mt : Metatype) (v obj : JSValue) (errors : List VError)
    (h1 : p2i mt v pipe.transformOptions = .ok obj)
    (h2 : vfn obj pipe.validatorOptions = .ok errors)
    (h3 : errors ≠ []) :
    attempt p2i vfn pipe mt v =
      .error (.badRequest (String.intercalate "; " (buildErrorMessages errors none))) := by
  have hl : errors.length > 0 := List.length_pos.mpr h3
  simp only [attempt, h1, h2, hl, if_true, if_pos]

/-- C6: every unexpected (unclassified) failure thrown by the
structural-transform step or the structural-validate step is wrapped by the
class-validation transform into a ValidationError whose message is exactly the
generic "Validation failed", independent of the message of the cause. -/
theorem claim_c6 :
    ∀ (p2i : PlainToInstance) (vfn : ValidateFn) (pipe : PipeConfig) (v : JSValue)
      (md : ArgumentMetadata) (mt : Metatype) (m : String),
      md.metatype = some mt → ClassValidationPipe.toValidate mt = true →
      v ≠ .vNull → v ≠ .vUndefined →
      (p2i mt v pipe.transformOptions = .error (.other m) ∨
        (∃ obj, p2i mt v pipe.transformOptions = .ok obj ∧
          vfn obj pipe.validatorOptions = .error (.other m))) →
      ClassValidationPipe.transform p2i vfn pipe (.imm v) md
        = .error (.badRequest "Validation failed") := by
  intro p2i vfn pipe v md mt m hmd hval h0 h1 hsrc
  rcases hsrc with h | ⟨obj, hob, hvf⟩
  · exact ClassValidationPipe.cvn_transform_unclassified p2i vfn pipe v md mt m hmd hval h0 h1
      (ClassValidationPipe.attempt_p2i_error p2i vfn pipe mt v _ h)
  · exact ClassValidationPipe.cvn_transform_unclassified p2i vfn pipe v md mt m hmd hval h0 h1
      (ClassValidationPipe.attempt_vfn_error p2i vfn pipe mt v obj _ hob hvf)

/-- C6 witness: a structural-transform capability that throws a plain error
with message "boom" yields exactly "Validation failed". -/
theorem claim_c6_witness :
    ClassValidationPipe.transform (fun _ _ _ => .error (.other "boom")) (fun _ _ => .ok [])
      (ClassValidationPipe.mk none none) (.imm (.vObject (.ok "o")))
      ⟨some (.mClass "CreateUserDto"), "body"⟩ = .error (.badRequest "Validation failed") :=
  claim_c6 (fun _ _ _ => .error (.other "boom")) (fun _ _ => .ok [])
    (ClassValidationPipe.mk none none) (.vObject (.ok "o"))
    ⟨some (.mClass "CreateUserDto"), "body"⟩ (.mClass "CreateUserDto") "boom"
    rfl rfl (by decide) (by decide) (Or.inl rfl)

/-- C7: when the descriptor declares no metatype, or declares one of the
built-in kinds String, Number, Boolean, Array, Object, the class-validation
transform returns the resolved value unchanged for every choice of the
external capabilities (hence without invoking them) and never fails. -/
theorem claim_c7 :
    ∀ (p2i : PlainToInstance) (vfn : ValidateFn) (pipe : PipeConfig)
      (inp : PInput) (v : JSValue) (md : ArgumentMetadata),
      ClassValidationPipe.resolveValue inp = .ok v →
      (md.metatype = none ∨ md.metatype = some .mString ∨ md.metatype = some .mNumber ∨
        md.metatype = some .mBoolean ∨ md.metatype = some .mArray ∨
        md.metatype = some .mObject) →
      ClassValidationPipe.transform p2i vfn pipe inp md = .ok v := by
  intro p2i vfn pipe inp v md hres hmd
  unfold ClassValidationPipe.transform
  rw [hres]
  rcases hmd with h | h | h | h | h | h <;> rw [h] <;>
    simp [ClassValidationPipe.toValidate]

/-- C7 witness: a Number-typed descriptor passes a string through even when
the capabilities would reject everything. -/
theorem claim_c7_witness :
    ClassValidationPipe.transform (fun _ _ _ => .error (.other "never"))
      (fun _ _ => .error (.other "never")) (ClassValidationPipe.mk none none)
      (.imm (.vString "hello")) ⟨some .mNumber, "query"⟩ = .ok (.vString "hello") :=
  claim_c7 (fun _ _ _ => .error (.other "never")) (fun _ _ => .error (.other "never"))
    (ClassValidationPipe.mk none none) (.imm (.vString "hello")) (.vString "hello")
    ⟨some .mNumber, "query"⟩ rfl (by simp)

/-- C8: a resolved null or undefined value is returned unchanged by both the
primitive coercion stage and the structured validation stage, with no error,
for every declared metatype, every primitive-pipe options object and every
choice of the external capabilities. -/
theorem claim_c8 :
    ∀ (opts : PrimitiveValidationPipe.Options) (md : ArgumentMetadata)
      (p2i : PlainToInstance) (vfn : ValidateFn) (pipe : PipeConfig) (v : JSValue),
      v = .vNull ∨ v = .vUndefined →
      PrimitiveValidationPipe.transform opts (.imm v) md = .ok v ∧
      ClassValidationPipe.transform p2i vfn pipe (.imm v) md = .ok v := by
  intro opts md p2i vfn pipe v hv
  constructor
  · unfold PrimitiveValidationPipe.transform
    simp only [PrimitiveValidationPipe.resolveValue]
    rw [if_pos hv]
  · unfold ClassValidationPipe.transform
    simp only [ClassValidationPipe.resolveValue]
    cases hmt : md.metatype with
    | none => rfl
    | some mt =>
      cases mt <;> rcases hv with h | h <;> subst h <;>
        simp [ClassValidationPipe.toValidate]

/-- C8 witness: null under a Boolean target in the primitive pipe and under a
schema class in the class pipe. -/
theorem claim_c8_witness :
    PrimitiveValidationPipe.transform PrimitiveValidationPipe.defaultOptions
      (.imm .vNull) ⟨some .mBoolean, "query"⟩ = .ok .vNull ∧
    ClassValidationPipe.transform (fun _ _ _ => .error (.other "never"))
      (fun _ _ => .error (.other "never")) (ClassValidationPipe.mk none none)
      (.imm .vNull) ⟨some (.mClass "Dto"), "body"⟩ = .ok .vNull :=
  claim_c8 PrimitiveValidationPipe.defaultOptions ⟨some .mBoolean, "query"⟩
    (fun _ _ _ => .error (.other "never")) (fun _ _ => .error (.other "never"))
    (ClassValidationPipe.mk none none) .vNull (Or.inl rfl)

/-- C3 counterexample: an unclassified failure thrown by the
structural-transform step of the structured validation stage is wrapped with
the fixed message "Validation failed", which does not include the
argument-kind label ("body") — contradicting the claim that every wrap
message includes the label. -/
theorem claim_c3_counterexample :
    ClassValidationPipe.transform (fun _ _ _ => .error (.other "boom")) (fun _ _ => .ok [])
      (ClassValidationPipe.mk none none) (.imm (.vObject (.ok "o")))
      ⟨some (.mClass "CreateUserDto"), "body"⟩
      = .error (.badRequest "Validation failed") ∧
    hasSubstr "body".data "Validation failed".data = false := by
  decide

/-- C3 (amended): in both stages a failure already classified as a
`BadRequestException` is re-raised unchanged; an unclassified failure is
wrapped into the enclosing kind — in the primitive stage with the contextual
message "Failed to validate <argument-kind>: <cause message>", which includes
the argument-kind label, and in the structured stage with the fixed message
"Validation failed", which omits the label. -/
theorem claim_c3 :
    (∀ (opts : PrimitiveValidationPipe.Options) (v : JSValue) (md : ArgumentMetadata)
        (mt : Metatype) (m : String),
      md.metatype = some mt → v ≠ .vNull → v ≠ .vUndefined →
      PrimitiveValidationPipe.transformValue opts v mt = .error (.badRequest m) →
      PrimitiveValidationPipe.transform opts (.imm v) md = .error (.badRequest m)) ∧
    (∀ (opts : PrimitiveValidationPipe.Options) (v : JSValue) (md : ArgumentMetadata)
        (mt : Metatype) (m : String),
      md.metatype = some mt → v ≠ .vNull → v ≠ .vUndefined →
      PrimitiveValidationPipe.transformValue opts v mt = .error (.other m) →
      PrimitiveValidationPipe.transform opts (.imm v) md
        = .error (.badRequest ("Failed to validate " ++ md.type ++ ": " ++ m))) ∧
    (∀ (p2i : PlainToInstance) (vfn : ValidateFn) (pipe : PipeConfig) (v : JSValue)
        (md : ArgumentMetadata) (mt : Metatype) (m : String),
      md.metatype = some mt → ClassValidationPipe.toValidate mt = true →
      v ≠ .vNull → v ≠ .vUndefined →
      ClassValidationPipe.attempt p2i vfn pipe mt v = .error (.badRequest m) →
      ClassValidationPipe.transform p2i vfn pipe (.imm v) md = .error (.badRequest m)) ∧
    (∀ (p2i : PlainToInstance) (vfn : ValidateFn) (pipe : PipeConfig) (v : JSValue)
        (md : ArgumentMetadata) (mt : Metatype) (m : String),
      md.metatype = some mt → ClassValidationPipe.toValidate mt = true →
      v ≠ .vNull → v ≠ .vUndefined →
      ClassValidationPipe.attempt p2i vfn pipe mt v = .error (.other m) →
      ClassValidationPipe.transform p2i vfn pipe (.imm v) md
        = .error (.badRequest "Validation failed")) := by
  refine ⟨?_, ?_, ?_, ?_⟩
  · intro opts v md mt m hmd h0 h1 h
    exact PrimitiveValidationPipe.prim_transform_classified opts v md mt m hmd h0 h1 h
  · intro opts v md mt m hmd h0 h1 h
    exact PrimitiveValidationPipe.prim_transform_unclassified opts v md mt m hmd h0 h1 h
  · intro p2i vfn pipe v md mt m hmd hval h0 h1 h
    exact ClassValidationPipe.cvn_transform_classified p2i vfn pipe v md mt m hmd hval h0 h1 h
  · intro p2i vfn pipe v md mt m hmd hval h0 h1 h
    exact ClassValidationPipe.cvn_transform_unclassified p2i vfn pipe v md mt m hmd hval h0 h1 h

/-- C3 witness: the four propagation behaviours at concrete inputs — a
classified and an unclassified failure through each stage. -/
theorem claim_c3_witness :
    PrimitiveValidationPipe.transform PrimitiveValidationPipe.defaultOptions
      (.imm (.vString "abc")) ⟨some .mNumber, "param"⟩
      = .error (.badRequest "Cannot convert \x27abc\x27 to a number") ∧
    PrimitiveValidationPipe.transform PrimitiveValidationPipe.defaultOptions
      (.imm (.vObject (.error "boom"))) ⟨some .mString, "param"⟩
      = .error (.badRequest "Failed to validate param: boom") ∧
    ClassValidationPipe.transform (fun _ _ _ => .error (.badRequest "already classified"))
      (fun _ _ => .ok []) (ClassValidationPipe.mk none none) (.imm (.vObject (.ok "o")))
      ⟨some (.mClass "Dto"), "body"⟩ = .error (.badRequest "already classified") ∧
    ClassValidationPipe.transform (fun _ _ _ => .error (.other "boom2")) (fun _ _ => .ok [])
      (ClassValidationPipe.mk none none) (.imm (.vObject (.ok "o")))
      ⟨some (.mClass "Dto"), "body"⟩ = .error (.badRequest "Validation failed") :=
  ⟨claim_c3.1 PrimitiveValidationPipe.defaultOptions (.vString "abc")
      ⟨some .mNumber, "param"⟩ .mNumber "Cannot convert \x27abc\x27 to a number"
      rfl (by decide) (by decide) (by decide),
   claim_c3.2.1 PrimitiveValidationPipe.defaultOptions (.vObject (.error "boom"))
      ⟨some .mString, "param"⟩ .mString "boom" rfl (by decide) (by decide) (by decide),
   claim_c3.2.2.1 (fun _ _ _ => .error (.badRequest "already classified")) (fun _ _ => .ok [])
      (ClassValidationPipe.mk none none) (.vObject (.ok "o")) ⟨some (.mClass "Dto"), "body"⟩
      (.mClass "Dto") "already classified" rfl rfl (by decide) (by decide) (by decide),
   claim_c3.2.2.2 (fun _ _ _ => .error (.other "boom2")) (fun _ _ => .ok [])
      (ClassValidationPipe.mk none none) (.vObject (.ok "o")) ⟨some (.mClass "Dto"), "body"⟩
      (.mClass "Dto") "boom2" rfl rfl (by decide) (by decide) (by decide)⟩

/-- Appending on the right preserves string non-emptiness. -/
theorem strAppend_ne_empty_left (s t : String) (h : s ≠ "") : s ++ t ≠ "" := by
  intro hc
  apply h
  have hd : s.data ++ t.data = ([] : List Char) := by
    have := congrArg String.data hc
    rwa [String.data_append] at this
  exact String.ext (List.append_eq_nil.mp hd).1

/-- String append is associative. -/
theorem strAppend_assoc (a b c : String) : a ++ b ++ c = a ++ (b ++ c) := by
  apply String.ext
  simp [String.data_append]

/-- A dot-join starting with a non-empty component is non-empty. -/
theorem joinDot_cons_ne_empty (a : String) (as : List String) (h : a ≠ "") :
    joinDot (a :: as) ≠ "" := by
  cases as with
  | nil => simpa [joinDot] using h
  | cons b bs =>
    simp only [joinDot]
    exact strAppend_ne_empty_left _ _ (strAppend_ne_empty_left _ _ h)

/-- Dot-joining after appending one component on the right. -/
theorem joinDot_snoc (x : String) :
    ∀ (a : String) (as : List String),
      joinDot (a :: (as ++ [x])) = joinDot (a :: as) ++ "." ++ x
  | a, [] => by simp [joinDot]
  | a, b :: bs => by
    have ih := joinDot_snoc x b bs
    simp only [List.cons_append, List.append_eq, joinDot] at ih ⊢
    rw [ih]
    simp [strAppend_assoc]

/-- On a violation forest with no empty property names, the flattening of the
source (`buildErrorMessages`, translated from the imperative code) agrees with
the flattening the specification describes (`specFlatten`: depth-first,
ancestors joined with a dot). -/
theorem build_eq_specFlatten :
    ∀ (es : List VError) (ancestors : List String),
      noEmptyPropsList es = true → (∀ a ∈ ancestors, a ≠ "") →
      ClassValidationPipe.buildErrorMessages es
          (match ancestors with | [] => none | _ :: _ => some (joinDot ancestors))
        = specFlatten es ancestors
  | [], ancestors, _, _ => by
    cases ancestors <;>
      simp [ClassValidationPipe.buildErrorMessages, specFlatten]
  | .node prop cs ch :: rest, ancestors, hne, ha => by
    have hcomp : ((prop ≠ "" : Bool) && noEmptyPropsList ch && noEmptyPropsList rest) = true := by
      simpa [noEmptyPropsList] using hne
    rw [Bool.and_eq_true, Bool.and_eq_true] at hcomp
    obtain ⟨⟨hp0, hch⟩, hrest⟩ := hcomp
    have hp : prop ≠ "" := by simpa using hp0
    have ihrest := build_eq_specFlatten rest ancestors hrest ha
    cases ancestors with
    | nil =>
      have ihch := build_eq_specFlatten ch [prop] hch
        (by intro a haa; rw [List.mem_singleton.mp haa]; exact hp)
      simp only [joinDot] at ihch
      cases cs <;>
        simp only [ClassValidationPipe.buildErrorMessages, specFlatten, List.nil_append,
          List.append_eq, joinDot] <;>
        rw [ihch, ihrest]
    | cons a as =>
      have hja : joinDot (a :: as) ≠ "" := joinDot_cons_ne_empty a as (ha a (by simp))
      have hext : ∀ x ∈ (a :: as) ++ [prop], x ≠ "" := by
        intro x hx
        rcases List.mem_append.mp hx with h | h
        · exact ha x h
        · rw [List.mem_singleton.mp h]; exact hp
      have ihch := build_eq_specFlatten ch ((a :: as) ++ [prop]) hch hext
      simp only [List.cons_append, List.append_eq, joinDot_snoc] at ihch
      cases cs <;>
        simp only [ClassValidationPipe.buildErrorMessages, specFlatten, List.cons_append,
          List.append_eq, joinDot_snoc, if_neg hja] <;>
        rw [ihch, ihrest]
termination_by es _ _ _ => sizeOf es

/-- C9: determinism — on two pipes freshly constructed from equal options,
`transform` applied to the same input and descriptor yields the same result,
in both the primitive stage and the structured stage (the embedding threads no
state, so the outcome is a function of the arguments and the construction-time
policy alone). -/
theorem claim_c9 :
    ∀ (o1 o2 : Option PrimitiveValidationPipe.Options)
      (vo1 vo2 : Option ValidatorOptions) (to1 to2 : Option ClassTransformOptions)
      (p2i : PlainToInstance) (vfn : ValidateFn) (inp : PInput) (md : ArgumentMetadata),
      o1 = o2 → vo1 = vo2 → to1 = to2 →
      PrimitiveValidationPipe.transform (PrimitiveValidationPipe.mk o1) inp md
        = PrimitiveValidationPipe.transform (PrimitiveValidationPipe.mk o2) inp md ∧
      ClassValidationPipe.transform p2i vfn (ClassValidationPipe.mk vo1 to1) inp md
        = ClassValidationPipe.transform p2i vfn (ClassValidationPipe.mk vo2 to2) inp md := by
  intro o1 o2 vo1 vo2 to1 to2 p2i vfn inp md h1 h2 h3
  subst h1
  subst h2
  subst h3
  exact ⟨rfl, rfl⟩

/-- C9 witness: two fresh default-constructed pipes agree at a concrete
input. -/
theorem claim_c9_witness :
    PrimitiveValidationPipe.transform (PrimitiveValidationPipe.mk none)
        (.imm (.vString "42")) ⟨some .mNumber, "param"⟩
      = PrimitiveValidationPipe.transform (PrimitiveValidationPipe.mk none)
        (.imm (.vString "42")) ⟨some .mNumber, "param"⟩ ∧
    ClassValidationPipe.transform (fun _ v _ => .ok v) (fun _ _ => .ok [])
        (ClassValidationPipe.mk none none) (.imm (.vString "42")) ⟨some .mNumber, "param"⟩
      = ClassValidationPipe.transform (fun _ v _ => .ok v) (fun _ _ => .ok [])
        (ClassValidationPipe.mk none none) (.imm (.vString "42")) ⟨some .mNumber, "param"⟩ :=
  claim_c9 none none none none none none (fun _ v _ => .ok v) (fun _ _ => .ok [])
    (.imm (.vString "42")) ⟨some .mNumber, "param"⟩ rfl rfl rfl

/-- The two class pipes test the same set of built-in metatypes. -/
theorem cvr_cvn_toValidate_eq (mt : Metatype) :
    ClassValidatorPipe.toValidate mt = ClassValidationPipe.toValidate mt := by
  cases mt <;> rfl

/-- The two class pipes resolve promises identically. -/
theorem cvr_cvn_resolve_eq (inp : PInput) :
    ClassValidatorPipe.resolveValue inp = ClassValidationPipe.resolveValue inp := by
  cases inp with
  | imm v => rfl
  | prom r => cases r <;> rfl

/-- The two class pipes flatten violation trees identically. -/
theorem cvr_cvn_build_eq :
    ∀ (es : List VError) (p : Option String),
      ClassValidatorPipe.buildErrorMessages es p = ClassValidationPipe.buildErrorMessages es p
  | [], _ => by
    simp [ClassValidatorPipe.buildErrorMessages, ClassValidationPipe.buildErrorMessages]
  | .node prop cs ch :: rest, p => by
    have ih1 := fun q => cvr_cvn_build_eq ch q
    have ih2 := cvr_cvn_build_eq rest p
    cases cs <;> cases p <;>
      simp only [ClassValidatorPipe.buildErrorMessages, ClassValidationPipe.buildErrorMessages] <;>
      rw [ih1 _, ih2]
termination_by es _ => sizeOf es

/-- The two class pipes run the try-block identically. -/
theorem cvr_cvn_attempt_eq (p2i : PlainToInstance) (vfn : ValidateFn) (pipe : PipeConfig)
    (mt : Metatype) (v : JSValue) :
    ClassValidatorPipe.attempt p2i vfn pipe mt v
      = ClassValidationPipe.attempt p2i vfn pipe mt v := by
  unfold ClassValidatorPipe.attempt ClassValidationPipe.attempt
  simp only [cvr_cvn_build_eq]

/-- C10: the two exported structured-validation pipes are behaviourally
equivalent — for every construction-time options pair, every pair of external
capabilities and every input and descriptor, their `transform`s return
identical results. -/
theorem claim_c10 :
    ∀ (vo : Option ValidatorOptions) (topt : Option ClassTransformOptions)
      (p2i : PlainToInstance) (vfn : ValidateFn) (inp : PInput) (md : ArgumentMetadata),
      ClassValidatorPipe.transform p2i vfn (ClassValidatorPipe.mk vo topt) inp md
        = ClassValidationPipe.transform p2i vfn (ClassValidationPipe.mk vo topt) inp md := by
  intro vo topt p2i vfn inp md
  have hmk : ClassValidatorPipe.mk vo topt = ClassValidationPipe.mk vo topt := rfl
  rw [hmk]
  generalize ClassValidationPipe.mk vo topt = pipe
  unfold ClassValidatorPipe.transform ClassValidationPipe.transform
  rw [cvr_cvn_resolve_eq]
  simp only [cvr_cvn_toValidate_eq, cvr_cvn_attempt_eq]

/-- C5 counterexample: on a violation tree whose root property name is the
empty string, the source renders the child path as "x" (the empty parent path
is falsy in JS, so no dot is prefixed), while the claimed flattening — the
ancestors joined with "." — renders ".x"; the produced message differs from
the claimed one. -/
theorem claim_c5_counterexample :
    ClassValidationPipe.transform (fun _ v _ => .ok v)
      (fun _ _ => .ok [.node "" (some [("c", "m")]) [.node "x" (some [("c2", "m2")]) []]])
      (ClassValidationPipe.mk none none) (.imm (.vObject (.ok "o")))
      ⟨some (.mClass "Dto"), "body"⟩ = .error (.badRequest ": m; x: m2") ∧
    String.intercalate "; "
        (specFlatten [.node "" (some [("c", "m")]) [.node "x" (some [("c2", "m2")]) []]] [])
      = ": m; .x: m2" ∧
    (": m; x: m2" : String) ≠ ": m; .x: m2" := by
  refine ⟨?_, ?_, by decide⟩
  · have h := ClassValidationPipe.cvn_transform_classified (fun _ v _ => .ok v)
      (fun _ _ => .ok [.node "" (some [("c", "m")]) [.node "x" (some [("c2", "m2")]) []]])
      (ClassValidationPipe.mk none none) (.vObject (.ok "o")) ⟨some (.mClass "Dto"), "body"⟩
      (.mClass "Dto") _ rfl rfl (by decide) (by decide)
      (ClassValidationPipe.attempt_violations (fun _ v _ => .ok v)
        (fun _ _ => .ok [.node "" (some [("c", "m")]) [.node "x" (some [("c2", "m2")]) []]])
        (ClassValidationPipe.mk none none) (.mClass "Dto") (.vObject (.ok "o"))
        (.vObject (.ok "o"))
        [.node "" (some [("c", "m")]) [.node "x" (some [("c2", "m2")]) []]]
        rfl rfl (by simp))
    rw [h]
    simp only [ClassValidationPipe.buildErrorMessages]
    decide
  · simp only [specFlatten, List.nil_append, joinDot]
    decide

/-- C5 (amended): whenever the structural-transform step succeeds and the
structural-validate capability reports a non-empty violation tree, the stage
fails with a ValidationError carrying exactly the depth-first flattened
"<path>: <messages>" segments joined by "; ", parent segments before their
children and each child path being the ancestor property names joined with "."
— with the proviso that an empty ancestor path contributes no dot (a child of
an empty-named root is rendered under its own name alone); on trees with no
empty property names the flattening agrees exactly with the
specification-described one. -/
theorem claim_c5 :
    ∀ (p2i : PlainToInstance) (vfn : ValidateFn) (pipe : PipeConfig) (v obj : JSValue)
      (md : ArgumentMetadata) (mt : Metatype) (errors : List VError),
      md.metatype = some mt → ClassValidationPipe.toValidate mt = true →
      v ≠ .vNull → v ≠ .vUndefined →
      p2i mt v pipe.transformOptions = .ok obj →
      vfn obj pipe.validatorOptions = .ok errors →
      errors ≠ [] →
      ClassValidationPipe.transform p2i vfn pipe (.imm v) md
        = .error (.badRequest (String.intercalate "; "
            (ClassValidationPipe.buildErrorMessages errors none))) ∧
      (noEmptyPropsList errors = true →
        ClassValidationPipe.buildErrorMessages errors none = specFlatten errors []) := by
  intro p2i vfn pipe v obj md mt errors hmd hval h0 h1 hp2i hvfn hne
  constructor
  · exact ClassValidationPipe.cvn_transform_classified p2i vfn pipe v md mt _ hmd hval h0 h1
      (ClassValidationPipe.attempt_violations p2i vfn pipe mt v obj errors hp2i hvfn hne)
  · intro hnep
    exact build_eq_specFlatten errors [] hnep (fun a ha => absurd ha (List.not_mem_nil a))

/-- C5 witness: a scripted two-level violation tree with non-empty property
names produces exactly the claimed joined message, and the source flattening
agrees with the specification-described one there. -/
theorem claim_c5_witness :
    ClassValidationPipe.transform (fun _ v _ => .ok v)
      (fun _ _ => .ok
        [.node "name" (some [("min", "too short")]) [],
         .node "address" (some [("c1", "bad")]) [.node "street" (some [("c2", "missing")]) []]])
      (ClassValidationPipe.mk none none) (.imm (.vObject (.ok "o")))
      ⟨some (.mClass "Dto"), "body"⟩
      = .error (.badRequest "name: too short; address: bad; address.street: missing") ∧
    ClassValidationPipe.buildErrorMessages
        [.node "name" (some [("min", "too short")]) [],
         .node "address" (some [("c1", "bad")]) [.node "street" (some [("c2", "missing")]) []]]
        none
      = specFlatten
        [.node "name" (some [("min", "too short")]) [],
         .node "address" (some [("c1", "bad")]) [.node "street" (some [("c2", "missing")]) []]]
        [] := by
  have h := claim_c5 (fun _ v _ => .ok v)
    (fun _ _ => .ok
      [.node "name" (some [("min", "too short")]) [],
       .node "address" (some [("c1", "bad")]) [.node "street" (some [("c2", "missing")]) []]])
    (ClassValidationPipe.mk none none) (.vObject (.ok "o")) (.vObject (.ok "o"))
    ⟨some (.mClass "Dto"), "body"⟩ (.mClass "Dto")
    [.node "name" (some [("min", "too short")]) [],
     .node "address" (some [("c1", "bad")]) [.node "street" (some [("c2", "missing")]) []]]
    rfl rfl (by decide) (by decide) rfl rfl (by simp)
  refine ⟨?_, h.2 (by simp [noEmptyPropsList])⟩
  rw [h.1]
  simp only [ClassValidationPipe.buildErrorMessages]
  decide
